import Mathlib

/-!
Shallow embedding of the Horus dependency-scanning core:
the canonical dependency model (`app/models/dependency.py`), the parser
factory (`app/services/parser/base.py`), the requirements.txt parser
(`app/services/parser/pip.py`), and the scan-result aggregation of the
scan orchestrator (modelled from the spec; its module
`app/services/scanner/osv.py` is not part of the sources).

Python strings are embedded as `List Char` where character-level
processing matters; the specific regular expressions used by the parser
(`==\s*([a-zA-Z0-9_.-]+)` etc.) are embedded as explicit scanning
functions with Python `re.search` semantics.
-/

set_option maxHeartbeats 1000000

/-- The nine package ecosystems of `PackageEcosystem` in
`app/models/dependency.py` (a `str`-valued enum). -/
inductive PackageEcosystem where
  | PYPI
  | NPM
  | COMPOSER
  | MAVEN
  | NUGET
  | RUBYGEMS
  | CARGO
  | GO
  | OTHER
deriving DecidableEq, Repr

/-- The string value of each `PackageEcosystem` member. -/
def PackageEcosystem.value : PackageEcosystem → String
  | .PYPI => "PyPI"
  | .NPM => "npm"
  | .COMPOSER => "Composer"
  | .MAVEN => "Maven"
  | .NUGET => "NuGet"
  | .RUBYGEMS => "RubyGems"
  | .CARGO => "Cargo"
  | .GO => "Go"
  | .OTHER => "Other"

/-- Coercion of a raw string to a `PackageEcosystem` member by value, as
pydantic performs when validating an enum-typed field (`None` when the
string is not one of the nine values). -/
def PackageEcosystem.ofString : String → Option PackageEcosystem
  | "PyPI" => some .PYPI
  | "npm" => some .NPM
  | "Composer" => some .COMPOSER
  | "Maven" => some .MAVEN
  | "NuGet" => some .NUGET
  | "RubyGems" => some .RUBYGEMS
  | "Cargo" => some .CARGO
  | "Go" => some .GO
  | "Other" => some .OTHER
  | _ => none

/-- The thirteen file types of `DependencyFileType` in
`app/models/dependency.py`. -/
inductive DependencyFileType where
  | REQUIREMENTS_TXT
  | POETRY_LOCK
  | PIPFILE_LOCK
  | PACKAGE_JSON
  | PACKAGE_LOCK_JSON
  | YARN_LOCK
  | COMPOSER_JSON
  | COMPOSER_LOCK
  | GEMFILE
  | GEMFILE_LOCK
  | CARGO_LOCK
  | GO_MOD
  | GO_SUM
deriving DecidableEq, Repr

/-- Coercion of a file-type token to a `DependencyFileType` member by
value, as `DependencyFileType(file_type)` does in
`ParserFactory.create_parser` (`None` embeds the `ValueError` raised for
an unrecognized token). -/
def DependencyFileType.ofString : String → Option DependencyFileType
  | "requirements.txt" => some .REQUIREMENTS_TXT
  | "poetry.lock" => some .POETRY_LOCK
  | "Pipfile.lock" => some .PIPFILE_LOCK
  | "package.json" => some .PACKAGE_JSON
  | "package-lock.json" => some .PACKAGE_LOCK_JSON
  | "yarn.lock" => some .YARN_LOCK
  | "composer.json" => some .COMPOSER_JSON
  | "composer.lock" => some .COMPOSER_LOCK
  | "Gemfile" => some .GEMFILE
  | "Gemfile.lock" => some .GEMFILE_LOCK
  | "Cargo.lock" => some .CARGO_LOCK
  | "go.mod" => some .GO_MOD
  | "go.sum" => some .GO_SUM
  | _ => none

/-- `PackageDependency` of `app/models/dependency.py`: name, version,
ecosystem and the dev-dependency flag. -/
structure PackageDependency where
  name : String
  version : String
  ecosystem : PackageEcosystem
  is_dev_dependency : Bool
deriving DecidableEq, Repr

/-- The single error kind pydantic raises when field validation of a
model fails (`pydantic.ValidationError`). -/
inductive ValidationError where
  | validationError
deriving DecidableEq, Repr

/-- Construction of a `PackageDependency` from raw field values, with the
validation pydantic applies to the model of `app/models/dependency.py`:
`name` and `version` are plain `str` fields with no constraint beyond
being strings, `ecosystem` is coerced to the `PackageEcosystem` enum by
value (failure raises `ValidationError`), `is_dev_dependency` is a bool. -/
def PackageDependency.construct (name version ecosystem : String)
    (is_dev : Bool) : Except ValidationError PackageDependency :=
  match PackageEcosystem.ofString ecosystem with
  | some e => .ok { name := name, version := version, ecosystem := e,
                    is_dev_dependency := is_dev }
  | none => .error .validationError

/-- `DependencyFileContent` of `app/models/dependency.py`: the file type
together with the ordered dependency list. -/
structure DependencyFileContent where
  file_type : DependencyFileType
  dependencies : List PackageDependency
deriving DecidableEq, Repr

/-- The concrete parser classes registered in `ParserFactory`'s
`parser_map` (`app/services/parser/base.py`). -/
inductive ParserKind where
  | requirementsTxt
  | poetryLock
deriving DecidableEq, Repr

/-- A constructed parser instance: `DependencyParser.__init__` only
stores the raw file content; no parsing happens until `parse()` is
called. -/
structure ParserInstance where
  kind : ParserKind
  file_content : String
deriving DecidableEq, Repr

/-- The two distinct `ValueError`s of `ParserFactory.create_parser`:
`"Unsupported file type: ..."` for an unrecognized token and
`"No parser available for file type: ..."` for a recognized type with no
registered parser. -/
inductive FactoryError where
  | unsupportedFileType (token : String)
  | noParserAvailable (token : String)
deriving DecidableEq, Repr

/-- The `parser_map` lookup of `ParserFactory.create_parser`: only
`REQUIREMENTS_TXT` and `POETRY_LOCK` have registered parser classes. -/
def registeredParserKind : DependencyFileType → Option ParserKind
  | .REQUIREMENTS_TXT => some .requirementsTxt
  | .POETRY_LOCK => some .poetryLock
  | _ => none

/-- `ParserFactory.create_parser` (`app/services/parser/base.py`):
convert the token to the enum (else `UnsupportedFileType`), look up the
registered parser class (else `NoParserAvailable`), and return an
instance bound to the raw content. -/
def createParser (file_type file_content : String) :
    Except FactoryError ParserInstance :=
  match DependencyFileType.ofString file_type with
  | none => .error (.unsupportedFileType file_type)
  | some ft =>
    match registeredParserKind ft with
    | none => .error (.noParserAvailable file_type)
    | some k => .ok { kind := k, file_content := file_content }

/-- The character class `[a-zA-Z0-9_.-]` used by every capture group in
`RequirementsTxtParser`'s regular expressions. -/
def isTokChar (c : Char) : Bool :=
  c.isAlphanum || c == '_' || c == '.' || c == '-'

/-- ASCII whitespace: the characters matched by Python's `\s` and
stripped by `str.strip()` (for the ASCII inputs the parser deals in). -/
def isPySpace (c : Char) : Bool :=
  c == ' ' || c == '\t' || c == '\n' || c == '\r' || c == '\x0b' || c == '\x0c'

/-- Python `str.strip()`: remove leading and trailing whitespace. -/
def pyStrip (s : List Char) : List Char :=
  ((s.dropWhile isPySpace).reverse.dropWhile isPySpace).reverse

/-- The line-break characters `str.splitlines()` splits on (ASCII ones
plus NEL and the Unicode line/paragraph separators). -/
def isLineBreak (c : Char) : Bool :=
  c == '\n' || c == '\r' || c == '\x0b' || c == '\x0c' || c == '\x1c' ||
  c == '\x1d' || c == '\x1e' || c == '\x85' || c == '\u2028' || c == '\u2029'

/-- Python `str.splitlines()`: split at line breaks (treating `\r\n` as
one break), with no empty trailing line for a trailing break. -/
def splitLines : List Char → List (List Char) :=
  go []
where
  /-- Accumulates the current line in reverse. -/
  go : List Char → List Char → List (List Char)
    | acc, [] => if acc.isEmpty then [] else [acc.reverse]
    | acc, '\r' :: '\n' :: rest => acc.reverse :: go [] rest
    | acc, c :: rest =>
      if isLineBreak c then acc.reverse :: go [] rest
      else go (c :: acc) rest

/-- Python `x in s` substring test on character lists. -/
def containsSub (needle : List Char) : List Char → Bool
  | [] => needle.isEmpty
  | c :: rest => needle.isPrefixOf (c :: rest) || containsSub needle rest

/-- Embeds `re.search(op + sep + r'([a-zA-Z0-9_.-]+)', s)` returning the
captured group: scan positions left to right; at a position where `op`
matches literally, skip whitespace when `ws` is true (the `\s*` of the
version-operator patterns; the `#egg=` pattern has no `\s*`), then
capture the maximal nonempty run of `[a-zA-Z0-9_.-]` characters; when the
run is empty the position fails and the scan resumes one character on. -/
def reSearchCapture (op : List Char) (ws : Bool) : List Char → Option (List Char)
  | [] => none
  | c :: rest =>
    if op.isPrefixOf (c :: rest) then
      let after := (c :: rest).drop op.length
      let start := if ws then after.dropWhile isPySpace else after
      let cap := start.takeWhile isTokChar
      if cap.isEmpty then reSearchCapture op ws rest else some cap
    else reSearchCapture op ws rest

namespace RequirementsTxtParser

/-- `RequirementsTxtParser.file_type` (`app/services/parser/pip.py`). -/
def file_type : DependencyFileType := .REQUIREMENTS_TXT

/-- `RequirementsTxtParser.ecosystem` (`app/services/parser/pip.py`). -/
def ecosystem : PackageEcosystem := .PYPI

/-- The version-constraint parsing of
`RequirementsTxtParser._parse_package` (lines 97-124 of
`app/services/parser/pip.py`): search for an exact `==` term first; then
test the operators `>=`, `>`, `<=`, `<`, `~=` for substring presence in
that order, keeping `op + value` for the first present operator whose
term search succeeds; `"latest"` when nothing matches. -/
def extractVersion (cs : List Char) : String :=
  match reSearchCapture "==".toList true cs with
  | some v => String.mk v
  | none =>
    if containsSub ">=".toList cs then
      match reSearchCapture ">=".toList true cs with
      | some v => ">=" ++ String.mk v
      | none => "latest"
    else if containsSub ">".toList cs then
      match reSearchCapture ">".toList true cs with
      | some v => ">" ++ String.mk v
      | none => "latest"
    else if containsSub "<=".toList cs then
      match reSearchCapture "<=".toList true cs with
      | some v => "<=" ++ String.mk v
      | none => "latest"
    else if containsSub "<".toList cs then
      match reSearchCapture "<".toList true cs with
      | some v => "<" ++ String.mk v
      | none => "latest"
    else if containsSub "~=".toList cs then
      match reSearchCapture "~=".toList true cs with
      | some v => "~=" ++ String.mk v
      | none => "latest"
    else "latest"

/-- The optional bracketed extras group `(?:\[[a-zA-Z0-9_.-]+\])?` of the
package-name pattern: consume `[run]` when the bracket is well formed
with a nonempty run, otherwise leave the input unchanged. -/
def stripExtras (s : List Char) : List Char :=
  match s with
  | '[' :: rest =>
    let run := rest.takeWhile isTokChar
    if run.isEmpty then s
    else
      match rest.drop run.length with
      | ']' :: after => after
      | _ => s
  | _ => s

/-- `RequirementsTxtParser._parse_package` (`app/services/parser/pip.py`):
VCS/URL lines (containing `git+`, `http://` or `https://`) yield a
dependency named by the `#egg=` fragment with version `"unknown"`, or
`none` without such a fragment; other lines are matched against
`^([a-zA-Z0-9_.-]+)(?:\[[a-zA-Z0-9_.-]+\])?(.*)$` and the stripped
remainder is fed to the version-constraint parsing. -/
def _parse_package (line : List Char) : Option PackageDependency :=
  if containsSub "git+".toList line || containsSub "http://".toList line ||
      containsSub "https://".toList line then
    match reSearchCapture "#egg=".toList false line with
    | some n => some { name := String.mk n, version := "unknown",
                       ecosystem := ecosystem, is_dev_dependency := false }
    | none => none
  else
    let name := line.takeWhile isTokChar
    if name.isEmpty then none
    else
      let rest := stripExtras (line.drop name.length)
      let cs := pyStrip rest
      let version := if cs.isEmpty then "latest" else extractVersion cs
      some { name := String.mk name, version := version,
             ecosystem := ecosystem, is_dev_dependency := false }

/-- The body of the per-line loop of `RequirementsTxtParser.parse`
(lines 34-55 of `app/services/parser/pip.py`): strip the line; skip it
when empty or a comment; drop a trailing backslash (and re-strip); skip
the `-r`/`-f`/`-i`/`--requirement`/`--find-links`/`--index-url` option
lines; strip an editable `-e` prefix; then parse the package. -/
def processLine (raw : List Char) : Option PackageDependency :=
  let line := pyStrip raw
  if line.isEmpty then none
  else if line.head? == some '#' then none
  else
    let line := if line.getLast? == some '\\' then pyStrip line.dropLast else line
    if ["-r", "-f", "-i", "--requirement", "--find-links", "--index-url"].any
        (fun p => p.toList.isPrefixOf line) then none
    else
      let line := if "-e".toList.isPrefixOf line then pyStrip (line.drop 2) else line
      _parse_package line

/-- The accumulation of parsed packages performed by the loop of
`RequirementsTxtParser.parse` (`dependencies.append(package)`). -/
def parseLoop : List (List Char) → List PackageDependency → List PackageDependency
  | [], acc => acc
  | l :: ls, acc =>
    match processLine l with
    | some p => parseLoop ls (acc ++ [p])
    | none => parseLoop ls acc

/-- `RequirementsTxtParser.parse` (`app/services/parser/pip.py`): process
the content line by line and return a `DependencyFileContent` with this
parser's file type. -/
def parse (file_content : String) : DependencyFileContent :=
  { file_type := file_type,
    dependencies := parseLoop (splitLines file_content.toList) [] }

end RequirementsTxtParser

/-- Modelled from the spec: the ordered severity tiers of a vulnerability
(spec section 3, `Vulnerability`); the orchestrator module
`app/services/scanner/osv.py` is not among the sources. -/
inductive Severity where
  | LOW
  | MEDIUM
  | HIGH
  | CRITICAL
deriving DecidableEq, Repr

/-- Modelled from the spec: a vulnerability record as the scan
orchestrator aggregates it — a source-assigned id, a summary and a
severity tier (spec section 3); `app/services/scanner/osv.py` is not
among the sources. -/
structure Vulnerability where
  id : String
  summary : String
  severity : Severity
deriving DecidableEq, Repr

/-- Modelled from the spec: deduplication of vulnerabilities by id
(spec section 4.5 step 5) — the first record with each id is kept. -/
def dedupById : List Vulnerability → List Vulnerability :=
  go []
where
  go (seen : List String) : List Vulnerability → List Vulnerability
    | [] => []
    | v :: vs => if seen.contains v.id then go seen vs else v :: go (v.id :: seen) vs

/-- Modelled from the spec: `vulnerabilitiesBySeverity` — the count of
deduplicated vulnerabilities in each severity tier (spec section 4.5
step 6). -/
def countBySeverity (vs : List Vulnerability) (s : Severity) : Nat :=
  (vs.filter (fun v => v.severity == s)).length

/-- Modelled from the spec: the `ScanResult` aggregate (spec section 3);
`app/services/scanner/osv.py` is not among the sources. -/
structure ScanResult where
  repository : String
  branch : String
  dependencies_count : Nat
  vulnerabilities : List Vulnerability
  vulnerabilities_by_severity : Severity → Nat
  has_vulnerabilities : Bool

/-- Modelled from the spec: the aggregation steps 5-7 of the scan
orchestrator (spec section 4.5) — merge the per-dependency lookup
results, deduplicate by vulnerability id, count by severity tier and
derive `hasVulnerabilities`. -/
def buildScanResult (repository branch : String) (deps_count : Nat)
    (lookup_results : List (List Vulnerability)) : ScanResult :=
  let vulns := dedupById lookup_results.flatten
  { repository := repository
    branch := branch
    dependencies_count := deps_count
    vulnerabilities := vulns
    vulnerabilities_by_severity := countBySeverity vulns
    has_vulnerabilities := decide (0 < vulns.length) }

/-! ### Helper lemmas about the embedded scanning primitives -/

/-- A pattern whose literal head does not occur as a substring is never
found by the search scan. -/
theorem reSearchCapture_none_of_not_contains (op : List Char) (ws : Bool)
    (s : List Char) (h : containsSub op s = false) :
    reSearchCapture op ws s = none := by
  induction s with
  | nil => rfl
  | cons c rest ih =>
    simp only [containsSub, Bool.or_eq_false_iff] at h
    simp only [reSearchCapture, h.1, Bool.false_eq_true, if_false]
    exact ih h.2

/-- If a one-character needle is absent, every extension of it is absent
as well. -/
theorem containsSub_cons_false (c : Char) (t s : List Char)
    (h : containsSub [c] s = false) : containsSub (c :: t) s = false := by
  induction s with
  | nil => rfl
  | cons c' rest ih =>
    simp only [containsSub, Bool.or_eq_false_iff, List.isPrefixOf] at h ⊢
    refine ⟨?_, ih h.2⟩
    cases hc : c == c' with
    | false => simp [List.isPrefixOf, hc]
    | true => simp [hc] at h
    
/-- Every character of a contiguous substring occurs in the string. -/
theorem mem_of_containsSub (n s : List Char) (h : containsSub n s = true) :
    ∀ c ∈ n, c ∈ s := by
  induction s with
  | nil =>
    simp only [containsSub, List.isEmpty_iff] at h
    subst h; intro c hc; cases hc
  | cons c' rest ih =>
    simp only [containsSub, Bool.or_eq_true] at h
    intro c hc
    cases h with
    | inl hp =>
      have hpre : n <+: (c' :: rest) := List.isPrefixOf_iff_prefix.mp hp
      exact hpre.sublist.subset hc
    | inr hr => exact List.mem_cons_of_mem _ (ih hr c hc)

/-- `takeWhile` keeps a list all of whose elements satisfy the predicate. -/
theorem takeWhile_eq_self_of_all (p : Char → Bool) (l : List Char)
    (h : ∀ c ∈ l, p c = true) : l.takeWhile p = l := by
  induction l with
  | nil => rfl
  | cons c rest ih =>
    simp only [List.takeWhile_cons, h c (List.mem_cons_self c rest), if_true]
    exact congrArg (c :: ·) (ih fun d hd => h d (List.mem_cons_of_mem _ hd))

/-- The parse loop accumulates exactly the packages that `processLine`
produces, in line order. -/
theorem RequirementsTxtParser.parseLoop_eq (ls : List (List Char))
    (acc : List PackageDependency) :
    RequirementsTxtParser.parseLoop ls acc =
      acc ++ ls.filterMap RequirementsTxtParser.processLine := by
  induction ls generalizing acc with
  | nil => simp [RequirementsTxtParser.parseLoop]
  | cons l ls ih =>
    cases h : RequirementsTxtParser.processLine l with
    | none => simp [RequirementsTxtParser.parseLoop, h, ih, List.filterMap_cons]
    | some p => simp [RequirementsTxtParser.parseLoop, h, ih, List.filterMap_cons]

/-- Every dependency `_parse_package` emits carries the parser's
ecosystem (`PyPI`) and is not a dev dependency. -/
theorem RequirementsTxtParser.package_fields (l : List Char)
    (d : PackageDependency)
    (h : RequirementsTxtParser._parse_package l = some d) :
    d.ecosystem = .PYPI ∧ d.is_dev_dependency = false := by
  simp only [RequirementsTxtParser._parse_package] at h
  split at h
  · split at h
    · injection h with h'; subst h'; exact ⟨rfl, rfl⟩
    · exact Option.noConfusion h
  · split at h
    · exact Option.noConfusion h
    · injection h with h'; subst h'; exact ⟨rfl, rfl⟩

/-- Every dependency a line contributes carries ecosystem `PyPI` and is
not a dev dependency. -/
theorem RequirementsTxtParser.processLine_fields (raw : List Char)
    (d : PackageDependency)
    (h : RequirementsTxtParser.processLine raw = some d) :
    d.ecosystem = .PYPI ∧ d.is_dev_dependency = false := by
  simp only [RequirementsTxtParser.processLine] at h
  repeat' split at h
  all_goals first
    | exact Option.noConfusion h
    | exact RequirementsTxtParser.package_fields _ d h

/-- The four severity-tier counts partition the vulnerability list. -/
theorem countBySeverity_sum (vs : List Vulnerability) :
    countBySeverity vs .LOW + countBySeverity vs .MEDIUM +
      countBySeverity vs .HIGH + countBySeverity vs .CRITICAL = vs.length := by
  induction vs with
  | nil => rfl
  | cons v vs ih =>
    simp only [countBySeverity, List.filter_cons] at ih ⊢
    cases hv : v.severity <;> simp [hv] <;> omega

/-! ### Claim theorems -/

/-- Claim C1: for every file-type token and content, `create_parser`
fails with the `UnsupportedFileType` error when the token is not a
recognized `DependencyFileType` value; for every token naming a
recognized enumeration value with no registered parser it fails with the
distinct `NoParserAvailable` error; and for every token naming a
registered type it returns a parser instance bound to the given content
with no parsing performed at construction (the instance merely stores
the raw content); in particular `"Gemfile"` gives `NoParserAvailable`
and `"requirements.txt"` gives a bound requirements parser. -/
theorem createParser_claim (token content : String)
    (h : DependencyFileType.ofString token = none) :
    createParser token content = .error (.unsupportedFileType token) ∧
    (∀ t ft, DependencyFileType.ofString t = some ft →
      registeredParserKind ft = none →
      createParser t content = .error (.noParserAvailable t)) ∧
    (∀ t ft k, DependencyFileType.ofString t = some ft →
      registeredParserKind ft = some k →
      createParser t content = .ok { kind := k, file_content := content }) ∧
    createParser "Gemfile" content = .error (.noParserAvailable "Gemfile") ∧
    createParser "requirements.txt" content =
      .ok { kind := .requirementsTxt, file_content := content } := by
  refine ⟨?_, ?_, ?_, rfl, rfl⟩
  · unfold createParser
    rw [h]
  · intro t ft hf hr
    simp [createParser, hf, hr]
  · intro t ft k hf hr
    simp [createParser, hf, hr]

/-- Witness for C1: the unsupported token `"xyz"` of the scenario, the
recognized-but-unregistered tokens `"go.mod"` and `"Gemfile"`, and the
registered tokens `"poetry.lock"` and `"requirements.txt"`. -/
theorem createParser_claim_witness :
    createParser "xyz" "requests==2.28.1\n" =
      .error (.unsupportedFileType "xyz") ∧
    createParser "go.mod" "requests==2.28.1\n" =
      .error (.noParserAvailable "go.mod") ∧
    createParser "poetry.lock" "requests==2.28.1\n" =
      .ok { kind := .poetryLock, file_content := "requests==2.28.1\n" } ∧
    createParser "Gemfile" "requests==2.28.1\n" =
      .error (.noParserAvailable "Gemfile") ∧
    createParser "requirements.txt" "requests==2.28.1\n" =
      .ok { kind := .requirementsTxt, file_content := "requests==2.28.1\n" } :=
  ⟨(createParser_claim "xyz" "requests==2.28.1\n" rfl).1,
   (createParser_claim "xyz" "requests==2.28.1\n" rfl).2.1 "go.mod"
     .GO_MOD rfl rfl,
   (createParser_claim "xyz" "requests==2.28.1\n" rfl).2.2.1 "poetry.lock"
     .POETRY_LOCK .poetryLock rfl rfl,
   (createParser_claim "xyz" "requests==2.28.1\n" rfl).2.2.2.1,
   (createParser_claim "xyz" "requests==2.28.1\n" rfl).2.2.2.2⟩

/-- Claim C2, counterexample: constructing a `PackageDependency` with an
empty name and a valid ecosystem succeeds — the pydantic model places no
non-emptiness constraint on the `name` field, so the `ValidationError`
the claim requires for an empty name does not occur. -/
theorem construct_empty_name_accepted :
    PackageDependency.construct "" "1.0" "PyPI" false =
      .ok { name := "", version := "1.0", ecosystem := .PYPI,
            is_dev_dependency := false } := rfl

/-- Claim C2 as amended: construction of a `PackageDependency` fails with
`ValidationError` exactly when the ecosystem is not one of the nine
recognized enumeration values; any name, the empty string included, is
accepted. -/
theorem construct_claim (name version eco : String) (d : Bool) :
    (PackageEcosystem.ofString eco = none →
      PackageDependency.construct name version eco d =
        .error .validationError) ∧
    (∀ e, PackageEcosystem.ofString eco = some e →
      PackageDependency.construct name version eco d =
        .ok { name := name, version := version, ecosystem := e,
              is_dev_dependency := d }) := by
  constructor
  · intro h
    unfold PackageDependency.construct
    rw [h]
  · intro e h
    unfold PackageDependency.construct
    rw [h]

/-- Witness for C2 as amended: an unrecognized ecosystem token is
rejected and a recognized one is accepted. -/
theorem construct_claim_witness :
    PackageDependency.construct "requests" "1.0" "maven" false =
      .error .validationError ∧
    PackageDependency.construct "requests" "1.0" "npm" true =
      .ok { name := "requests", version := "1.0", ecosystem := .NPM,
            is_dev_dependency := true } :=
  ⟨(construct_claim "requests" "1.0" "maven" false).1 rfl,
   (construct_claim "requests" "1.0" "npm" true).2 .NPM rfl⟩

/-- Claim C3, code evaluated at the failing input: on
`"requests==\\\n2.28.1"` the parser does not join the continuation line
with the next one — it only strips the trailing backslash, parses
`"requests=="` alone as `(requests, latest)`, and then parses the
trailing fragment `"2.28.1"` as a separate package named `"2.28.1"`,
yielding two dependencies instead of the single joined spec. -/
theorem continuation_not_joined :
    RequirementsTxtParser.parse "requests==\\\n2.28.1" =
      { file_type := .REQUIREMENTS_TXT,
        dependencies := [
          { name := "requests", version := "latest", ecosystem := .PYPI,
            is_dev_dependency := false },
          { name := "2.28.1", version := "latest", ecosystem := .PYPI,
            is_dev_dependency := false }] } := by
  decide

/-- Claim C6: the scenario manifest parses to exactly three dependencies
in manifest order, the comment line contributing nothing. -/
theorem three_deps_scenario :
    RequirementsTxtParser.parse
        "requests==2.28.1\npytest==7.1.2\n# comment\nFlask==2.0.1\n" =
      { file_type := .REQUIREMENTS_TXT,
        dependencies := [
          { name := "requests", version := "2.28.1", ecosystem := .PYPI,
            is_dev_dependency := false },
          { name := "pytest", version := "7.1.2", ecosystem := .PYPI,
            is_dev_dependency := false },
          { name := "Flask", version := "2.0.1", ecosystem := .PYPI,
            is_dev_dependency := false }] } := by
  decide

/-- Claim C10: the option line `"--no-binary :all:"` is not in the
parser's skip list, and since the package-name character class admits
leading hyphens it is parsed as a package named `"--no-binary"` with
version `"latest"` rather than dropped. -/
theorem option_flag_parsed_as_package :
    RequirementsTxtParser.parse "--no-binary :all:" =
      { file_type := .REQUIREMENTS_TXT,
        dependencies := [
          { name := "--no-binary", version := "latest", ecosystem := .PYPI,
            is_dev_dependency := false }] } := by
  decide

/-- Claim C7: for every input text the requirements parser terminates
with a `DependencyFileContent` (the embedding is a total function whose
value is characterized below), each line is processed independently by
the per-line pipeline, and a line the pipeline cannot parse is dropped
silently without affecting the dependencies contributed by the other
lines of the manifest. -/
theorem parse_never_aborts :
    (∀ text : String, RequirementsTxtParser.parse text =
      { file_type := .REQUIREMENTS_TXT,
        dependencies :=
          (splitLines text.toList).filterMap
            RequirementsTxtParser.processLine }) ∧
    (∀ (ls1 ls2 : List (List Char)) (bad : List Char),
      RequirementsTxtParser.processLine bad = none →
      (ls1 ++ bad :: ls2).filterMap RequirementsTxtParser.processLine =
        (ls1 ++ ls2).filterMap RequirementsTxtParser.processLine) := by
  constructor
  · intro text
    unfold RequirementsTxtParser.parse
    rw [RequirementsTxtParser.parseLoop_eq]
    rfl
  · intro ls1 ls2 bad h
    simp [List.filterMap_append, List.filterMap_cons, h]

/-- Witness for C7: dropping the unparseable line `"==="` leaves the
dependencies of the surrounding lines unchanged. -/
theorem parse_never_aborts_witness :
    (["requests==2.28.1".toList] ++
        "===".toList :: ["Flask==2.0.1".toList]).filterMap
      RequirementsTxtParser.processLine =
    (["requests==2.28.1".toList] ++ ["Flask==2.0.1".toList]).filterMap
      RequirementsTxtParser.processLine :=
  parse_never_aborts.2 ["requests==2.28.1".toList] ["Flask==2.0.1".toList]
    "===".toList (by decide)

/-- Claim C8: for every input text the parser's result has file type
`REQUIREMENTS_TXT`, its dependencies are exactly the per-line results in
line-encounter order, and every emitted dependency has ecosystem `PyPI`
and a false dev-dependency flag. -/
theorem parse_invariants (text : String) :
    (RequirementsTxtParser.parse text).file_type = .REQUIREMENTS_TXT ∧
    (RequirementsTxtParser.parse text).dependencies =
      (splitLines text.toList).filterMap RequirementsTxtParser.processLine ∧
    (∀ d ∈ (RequirementsTxtParser.parse text).dependencies,
      d.ecosystem = .PYPI ∧ d.is_dev_dependency = false) := by
  have hdeps : (RequirementsTxtParser.parse text).dependencies =
      (splitLines text.toList).filterMap RequirementsTxtParser.processLine := by
    unfold RequirementsTxtParser.parse
    rw [RequirementsTxtParser.parseLoop_eq]
    rfl
  refine ⟨rfl, hdeps, ?_⟩
  intro d hd
  rw [hdeps] at hd
  obtain ⟨l, -, hl⟩ := List.mem_filterMap.mp hd
  exact RequirementsTxtParser.processLine_fields l d hl

/-- Witness for C8 at the dependency emitted for `"requests==2.28.1"`. -/
theorem parse_invariants_witness :
    ({ name := "requests", version := "2.28.1", ecosystem := .PYPI,
       is_dev_dependency := false } : PackageDependency).ecosystem = .PYPI ∧
    ({ name := "requests", version := "2.28.1", ecosystem := .PYPI,
       is_dev_dependency := false } :
        PackageDependency).is_dev_dependency = false :=
  (parse_invariants "requests==2.28.1").2.2
    { name := "requests", version := "2.28.1", ecosystem := .PYPI,
      is_dev_dependency := false }
    (by decide)

/-- Claim C9 (the orchestrator is modelled from the spec): for every
`ScanResult` the orchestrator's aggregation builds, the severity counts
sum to the length of the deduplicated vulnerability list — each
deduplicated vulnerability is counted in exactly one severity tier. -/
theorem severity_counts_total (repository branch : String)
    (deps_count : Nat) (lookup_results : List (List Vulnerability)) :
    (buildScanResult repository branch deps_count
        lookup_results).vulnerabilities_by_severity .LOW +
    (buildScanResult repository branch deps_count
        lookup_results).vulnerabilities_by_severity .MEDIUM +
    (buildScanResult repository branch deps_count
        lookup_results).vulnerabilities_by_severity .HIGH +
    (buildScanResult repository branch deps_count
        lookup_results).vulnerabilities_by_severity .CRITICAL =
    (buildScanResult repository branch deps_count
        lookup_results).vulnerabilities.length := by
  simp only [buildScanResult]
  exact countBySeverity_sum _

/-- Claim C4: version-constraint text is resolved by trying the
operators in the precedence `==`, `>=`, `>`, `<=`, `<`, `~=` and keeping
only the first recognized operator's term: a found `==` term gives the
bare literal value; each other present operator gives the operator
concatenated with its value; with no recognized operator in the
constraint text, or no constraint text at all after the package name,
the version is `"latest"` (and `">=1.0,<2.0"` resolves to `">=1.0"`). -/
theorem version_precedence_claim :
    (∀ cs : List Char, containsSub ['=', '='] cs = false →
       containsSub ['>'] cs = false →
       containsSub ['<'] cs = false →
       containsSub ['~', '='] cs = false →
       RequirementsTxtParser.extractVersion cs = "latest") ∧
    (∀ cs v, reSearchCapture ['=', '='] true cs = some v →
       RequirementsTxtParser.extractVersion cs = String.mk v) ∧
    (∀ cs v, reSearchCapture ['=', '='] true cs = none →
       containsSub ['>', '='] cs = true →
       reSearchCapture ['>', '='] true cs = some v →
       RequirementsTxtParser.extractVersion cs = ">=" ++ String.mk v) ∧
    (∀ cs v, reSearchCapture ['=', '='] true cs = none →
       containsSub ['>', '='] cs = false →
       containsSub ['>'] cs = true →
       reSearchCapture ['>'] true cs = some v →
       RequirementsTxtParser.extractVersion cs = ">" ++ String.mk v) ∧
    (∀ cs v, reSearchCapture ['=', '='] true cs = none →
       containsSub ['>', '='] cs = false →
       containsSub ['>'] cs = false →
       containsSub ['<', '='] cs = true →
       reSearchCapture ['<', '='] true cs = some v →
       RequirementsTxtParser.extractVersion cs = "<=" ++ String.mk v) ∧
    (∀ cs v, reSearchCapture ['=', '='] true cs = none →
       containsSub ['>', '='] cs = false →
       containsSub ['>'] cs = false →
       containsSub ['<', '='] cs = false →
       containsSub ['<'] cs = true →
       reSearchCapture ['<'] true cs = some v →
       RequirementsTxtParser.extractVersion cs = "<" ++ String.mk v) ∧
    (∀ cs v, reSearchCapture ['=', '='] true cs = none →
       containsSub ['>', '='] cs = false →
       containsSub ['>'] cs = false →
       containsSub ['<', '='] cs = false →
       containsSub ['<'] cs = false →
       containsSub ['~', '='] cs = true →
       reSearchCapture ['~', '='] true cs = some v →
       RequirementsTxtParser.extractVersion cs = "~=" ++ String.mk v) ∧
    (∀ name : List Char, name.isEmpty = false →
       (∀ c ∈ name, isTokChar c = true) →
       RequirementsTxtParser._parse_package name =
         some { name := String.mk name, version := "latest",
                ecosystem := .PYPI, is_dev_dependency := false }) ∧
    RequirementsTxtParser.extractVersion ">=1.0,<2.0".toList = ">=1.0" := by
  refine ⟨?_, ?_, ?_, ?_, ?_, ?_, ?_, ?_, by decide⟩
  · intro cs h1 h2 h3 h4
    have heq : reSearchCapture ['=', '='] true cs = none :=
      reSearchCapture_none_of_not_contains _ _ _ h1
    have hge : containsSub ['>', '='] cs = false :=
      containsSub_cons_false '>' ['='] cs h2
    have hle : containsSub ['<', '='] cs = false :=
      containsSub_cons_false '<' ['='] cs h3
    simp [RequirementsTxtParser.extractVersion, heq, hge, h2, hle, h3, h4]
  · intro cs v h
    simp [RequirementsTxtParser.extractVersion, h]
  · intro cs v h1 h2 h3
    simp [RequirementsTxtParser.extractVersion, h1, h2, h3]
  · intro cs v h1 h2 h3 h4
    simp [RequirementsTxtParser.extractVersion, h1, h2, h3, h4]
  · intro cs v h1 h2 h3 h4 h5
    simp [RequirementsTxtParser.extractVersion, h1, h2, h3, h4, h5]
  · intro cs v h1 h2 h3 h4 h5 h6
    simp [RequirementsTxtParser.extractVersion, h1, h2, h3, h4, h5, h6]
  · intro cs v h1 h2 h3 h4 h5 h6 h7
    simp [RequirementsTxtParser.extractVersion, h1, h2, h3, h4, h5, h6, h7]
  · intro name hne hall
    have hg : containsSub ['g', 'i', 't', '+'] name = false := by
      cases hc : containsSub ['g', 'i', 't', '+'] name with
      | false => rfl
      | true =>
        have hm : '+' ∈ name := mem_of_containsSub _ _ hc '+' (by decide)
        exact absurd (hall '+' hm) (by decide)
    have hh : containsSub ['h', 't', 't', 'p', ':', '/', '/'] name = false := by
      cases hc : containsSub ['h', 't', 't', 'p', ':', '/', '/'] name with
      | false => rfl
      | true =>
        have hm : ':' ∈ name := mem_of_containsSub _ _ hc ':' (by decide)
        exact absurd (hall ':' hm) (by decide)
    have hs : containsSub ['h', 't', 't', 'p', 's', ':', '/', '/'] name = false := by
      cases hc : containsSub ['h', 't', 't', 'p', 's', ':', '/', '/'] name with
      | false => rfl
      | true =>
        have hm : ':' ∈ name := mem_of_containsSub _ _ hc ':' (by decide)
        exact absurd (hall ':' hm) (by decide)
    have ht : name.takeWhile isTokChar = name :=
      takeWhile_eq_self_of_all _ _ hall
    simp [RequirementsTxtParser._parse_package, hg, hh, hs, ht, hne,
          List.drop_length, RequirementsTxtParser.stripExtras, pyStrip,
          RequirementsTxtParser.ecosystem]

/-- Witness for C4: one concrete instantiation of each conditional
conjunct. -/
theorem version_precedence_claim_witness :
    RequirementsTxtParser.extractVersion "1.0".toList = "latest" ∧
    RequirementsTxtParser.extractVersion "==2.28.1".toList = "2.28.1" ∧
    RequirementsTxtParser.extractVersion ">=1.0,<2.0".toList = ">=1.0" ∧
    RequirementsTxtParser.extractVersion ">1.0".toList = ">1.0" ∧
    RequirementsTxtParser.extractVersion "<=3.0".toList = "<=3.0" ∧
    RequirementsTxtParser.extractVersion "<3.0".toList = "<3.0" ∧
    RequirementsTxtParser.extractVersion "~=1.4".toList = "~=1.4" ∧
    RequirementsTxtParser._parse_package "requests".toList =
      some { name := "requests", version := "latest", ecosystem := .PYPI,
             is_dev_dependency := false } :=
  ⟨version_precedence_claim.1 "1.0".toList (by decide) (by decide)
     (by decide) (by decide),
   version_precedence_claim.2.1 "==2.28.1".toList "2.28.1".toList (by decide),
   version_precedence_claim.2.2.1 ">=1.0,<2.0".toList "1.0".toList
     (by decide) (by decide) (by decide),
   version_precedence_claim.2.2.2.1 ">1.0".toList "1.0".toList
     (by decide) (by decide) (by decide) (by decide),
   version_precedence_claim.2.2.2.2.1 "<=3.0".toList "3.0".toList
     (by decide) (by decide) (by decide) (by decide) (by decide),
   version_precedence_claim.2.2.2.2.2.1 "<3.0".toList "3.0".toList
     (by decide) (by decide) (by decide) (by decide) (by decide) (by decide),
   version_precedence_claim.2.2.2.2.2.2.1 "~=1.4".toList "1.4".toList
     (by decide) (by decide) (by decide) (by decide) (by decide) (by decide)
     (by decide),
   version_precedence_claim.2.2.2.2.2.2.2.1 "requests".toList (by decide)
     (by decide)⟩

/-- Claim C5: for every line containing `git+`, `http://` or `https://`,
the parser emits exactly the dependency named by the `#egg=` capture with
version `"unknown"` and ecosystem `PyPI` when the fragment is present,
and nothing (with no error) when it is absent; the editable VCS scenario
yields the single dependency `(mypkg, unknown, PyPI)` and the
fragment-free URL scenario yields an empty dependency list. -/
theorem vcs_url_claim (line : List Char)
    (h : (containsSub ['g', 'i', 't', '+'] line ||
          containsSub ['h', 't', 't', 'p', ':', '/', '/'] line ||
          containsSub ['h', 't', 't', 'p', 's', ':', '/', '/'] line) = true) :
    RequirementsTxtParser._parse_package line =
      (reSearchCapture ['#', 'e', 'g', 'g', '='] false line).map
        (fun n => { name := String.mk n, version := "unknown",
                    ecosystem := .PYPI, is_dev_dependency := false }) ∧
    RequirementsTxtParser.parse
        "-e git+https://github.com/x/y.git#egg=mypkg\n" =
      { file_type := .REQUIREMENTS_TXT,
        dependencies := [
          { name := "mypkg", version := "unknown", ecosystem := .PYPI,
            is_dev_dependency := false }] } ∧
    RequirementsTxtParser.parse "git+https://github.com/x/y.git\n" =
      { file_type := .REQUIREMENTS_TXT, dependencies := [] } := by
  refine ⟨?_, by decide, by decide⟩
  simp only [RequirementsTxtParser._parse_package]
  rw [if_pos]
  · rw [show "#egg=".toList = ['#', 'e', 'g', 'g', '='] from rfl]
    cases hc : reSearchCapture ['#', 'e', 'g', 'g', '='] false line with
    | none => rfl
    | some n => rfl
  · exact h

/-- Witness for C5 at the VCS line of the scenario. -/
theorem vcs_url_claim_witness :
    RequirementsTxtParser._parse_package
        "git+https://github.com/x/y.git#egg=mypkg".toList =
      (reSearchCapture ['#', 'e', 'g', 'g', '='] false
          "git+https://github.com/x/y.git#egg=mypkg".toList).map
        (fun n => { name := String.mk n, version := "unknown",
                    ecosystem := .PYPI, is_dev_dependency := false }) ∧
    RequirementsTxtParser.parse
        "-e git+https://github.com/x/y.git#egg=mypkg\n" =
      { file_type := .REQUIREMENTS_TXT,
        dependencies := [
          { name := "mypkg", version := "unknown", ecosystem := .PYPI,
            is_dev_dependency := false }] } ∧
    RequirementsTxtParser.parse "git+https://github.com/x/y.git\n" =
      { file_type := .REQUIREMENTS_TXT, dependencies := [] } :=
  vcs_url_claim "git+https://github.com/x/y.git#egg=mypkg".toList (by decide)
